import Mathlib

/-!
Shallow embedding of the visitor-tracking backend (`resume/models.py`,
`resume/views.py`).

Conventions of the embedding:
* A Django `CharField(null=True)` / nullable value is `Option String`;
  Python `None` is `none` and a stored string `s` is `some s`.
* Python truthiness of such a value (`if x:`) is `strTruthy`: `none` and
  `some ""` are falsy, everything else truthy.
* The database table is a `List Visitor`; `get_or_create` keyed on the
  unique `visitor_id` column is a `find?` over that list, and `save` either
  appends the new row or replaces the row with the same id.
* The outbound HTTP call of `_lookup_country` is modelled by an oracle
  argument `geo : Option GeoReply`: `none` is a raised exception (timeout,
  malformed body), `some r` is a parsed JSON body with the three fields the
  code reads (`status`, `country`, `countryCode`), each possibly absent.
* `auto_now` / `auto_now_add` timestamps are a `now : Nat` argument.
-/

/-- A row of the `Visitor` table (`resume/models.py`). -/
structure Visitor where
  visitor_id : String
  ip_address : Option String
  country : Option String
  country_code : Option String
  user_agent : Option String
  visit_count : Nat
  first_seen : Nat
  last_seen : Nat
  deriving Repr, DecidableEq

/-- The request data `track_visit` reads: the JSON body's `visitor_id` and
the three `request.META` entries the view consults. -/
structure TrackRequest where
  visitor_id : Option String
  x_forwarded_for : Option String
  remote_addr : Option String
  user_agent : Option String
  deriving Repr, DecidableEq

/-- The fields of the ip-api JSON body that `_lookup_country` reads;
each may be absent from the body. -/
structure GeoReply where
  status : Option String
  country : Option String
  countryCode : Option String
  deriving Repr, DecidableEq

/-- Python truthiness of an optional string: `None` and `""` are falsy. -/
def strTruthy : Option String → Bool
  | none => false
  | some s => !(s == "")

/-- Python `str.strip()`: drop whitespace from both ends. Written on the
character list with structural recursion so concrete instances reduce. -/
def pyStrip (s : String) : String :=
  ⟨(((s.data.dropWhile Char.isWhitespace).reverse).dropWhile Char.isWhitespace).reverse⟩

/-- Splitting a character list at every comma (Python `s.split(",")`). -/
def splitCommaAux : List Char → List Char → List (List Char)
  | [], acc => [acc.reverse]
  | c :: cs, acc =>
      if c = ',' then acc.reverse :: splitCommaAux cs [] else splitCommaAux cs (c :: acc)

/-- Python `s.split(",")`, the call `_get_client_ip` makes. -/
def pySplitComma (s : String) : List String :=
  (splitCommaAux s.data []).map (fun l => ⟨l⟩)

/-- Python `x or d` for an optional string `x` and default `d`. -/
def pyOr (x : Option String) (d : String) : String :=
  match x with
  | none => d
  | some s => if s == "" then d else s

/-- `_get_client_ip`: prefer `HTTP_X_FORWARDED_FOR` (when truthy), taking
the first comma-separated entry stripped; else `REMOTE_ADDR`. -/
def getClientIp (req : TrackRequest) : Option String :=
  match req.x_forwarded_for with
  | some s => if s == "" then req.remote_addr else some (pyStrip ((pySplitComma s).headD ""))
  | none => req.remote_addr

/-- `_lookup_country`: returns `(None, None)` for a falsy ip, a raised
exception, or a non-`"success"` status; otherwise the body's `country` and
`countryCode` fields. -/
def lookupCountry (ip : Option String) (geo : Option GeoReply) : Option String × Option String :=
  if !strTruthy ip then (none, none)
  else
    match geo with
    | none => (none, none)
    | some r => if r.status == some "success" then (r.country, r.countryCode) else (none, none)

/-- `Visitor.objects.get_or_create(visitor_id=..., defaults={...})`:
the found row with `created = false`, or a fresh row seeded from the
defaults (`visit_count` starts at the model default 0) with `created = true`. -/
def getOrCreate (store : List Visitor) (vid : String) (ip : Option String) (ua : String)
    (now : Nat) : Visitor × Bool :=
  match store.find? (fun v => v.visitor_id == vid) with
  | some v => (v, false)
  | none =>
      ({ visitor_id := vid, ip_address := ip, country := none, country_code := none,
         user_agent := some ua, visit_count := 0, first_seen := now, last_seen := now }, true)

/-- The `if not created:` block of `track_visit`: best-effort refresh of
`ip_address` and `user_agent`, returning the row and the `updated` flag. -/
def refresh (v : Visitor) (created : Bool) (ip : Option String) (ua : String) :
    Visitor × Bool :=
  if created then (v, false)
  else
    let p1 := if strTruthy ip && !(v.ip_address == ip)
      then ({ v with ip_address := ip }, true) else (v, false)
    if !(ua == "") && !(p1.1.user_agent == some ua)
      then ({ p1.1 with user_agent := some ua }, true) else p1

/-- The enrichment block of `track_visit`: when the ip is truthy and
`visitor.country` is falsy, invoke `_lookup_country`; assign both fields if
either returned value is truthy. Returns the row, the `updated` flag, and
whether the lookup collaborator was invoked. -/
def enrichStep (v : Visitor) (ip : Option String) (geo : Option GeoReply) (updated : Bool) :
    Visitor × Bool × Bool :=
  if strTruthy ip && !strTruthy v.country then
    let r := lookupCountry ip geo
    if strTruthy r.1 || strTruthy r.2 then
      ({ v with country := r.1, country_code := r.2 }, true, true)
    else (v, updated, true)
  else (v, updated, false)

/-- `visitor.save()`: append the new row, or replace the row with the same
`visitor_id`. -/
def saveRow (store : List Visitor) (v : Visitor) (created : Bool) : List Visitor :=
  if created then store ++ [v]
  else store.map (fun r => if r.visitor_id == v.visitor_id then v else r)

/-- The JSON body of a successful `track_visit` response. -/
structure TrackResponse where
  created : Bool
  visitor_id : String
  visit_count : Nat
  country : Option String
  country_code : Option String
  deriving Repr, DecidableEq

/-- An error response body together with its HTTP status. -/
structure ErrorBody where
  detail : String
  status : Nat
  deriving Repr, DecidableEq

/-- The observable outcome of one `track_visit` call: the HTTP result, the
table after the call, and whether the geolocation collaborator was invoked. -/
structure TrackOutput where
  result : Except ErrorBody TrackResponse
  store : List Visitor
  lookupCalled : Bool
  deriving Repr

/-- The `visitor_id` as normalised by the view:
`(request.data.get("visitor_id") or "").strip()`. -/
def normId (req : TrackRequest) : String :=
  pyStrip (req.visitor_id.getD "")

/-- `track_visit` (`resume/views.py`): validate, find-or-create, refresh
metadata, conditionally enrich via geolocation, increment `visit_count`,
save, respond. -/
def trackVisit (store : List Visitor) (req : TrackRequest) (geo : Option GeoReply)
    (now : Nat) : TrackOutput :=
  let visitor_id := normId req
  if visitor_id == "" || decide (64 < visitor_id.length) then
    { result := .error { detail := "Invalid visitor_id", status := 400 },
      store := store, lookupCalled := false }
  else
    let ip_address := getClientIp req
    let user_agent := req.user_agent.getD ""
    let vc := getOrCreate store visitor_id ip_address user_agent now
    let p1 := refresh vc.1 vc.2 ip_address user_agent
    let p2 := enrichStep p1.1 ip_address geo p1.2
    let v3 : Visitor := { p2.1 with visit_count := p2.1.visit_count + 1, last_seen := now }
    let body : TrackResponse :=
      { created := vc.2, visitor_id := v3.visitor_id, visit_count := v3.visit_count,
        country := v3.country, country_code := v3.country_code }
    { result := .ok body, store := saveRow store v3 vc.2, lookupCalled := p2.2.2 }

/-- One entry of a `by_country` group before display mapping: the raw
grouping key `(country, country_code)` with the group's aggregates. -/
structure GroupRow where
  country : Option String
  country_code : Option String
  unique_visitors : Nat
  pageviews : Nat
  deriving Repr, DecidableEq

/-- One displayed entry of the `by_country` sequence. -/
structure StatsEntry where
  country : String
  country_code : String
  unique_visitors : Nat
  pageviews : Nat
  deriving Repr, DecidableEq

/-- The body of the `visit_stats` response. -/
structure StatsResponse where
  total_pageviews : Nat
  unique_visitors : Nat
  by_country : List StatsEntry
  deriving Repr, DecidableEq

/-- The raw grouping key of a row, as `values("country", "country_code")`
groups it. -/
def rowKey (v : Visitor) : Option String × Option String :=
  (v.country, v.country_code)

/-- The rows of the store belonging to one grouping key. -/
def groupRows (store : List Visitor) (p : Option String × Option String) : List Visitor :=
  store.filter (fun v => rowKey v == p)

/-- `SUM("visit_count")` of an SQL aggregate: `NULL` (here `none`) over an
empty set of rows. -/
def aggregateSum (l : List Nat) : Option Nat :=
  match l with
  | [] => none
  | _ => some l.sum

/-- The `order_by("-pageviews")` ordering: descending summed pageviews. -/
def pageviewsGE (a b : GroupRow) : Prop :=
  b.pageviews ≤ a.pageviews

instance : DecidableRel pageviewsGE := fun a b => Nat.decLe b.pageviews a.pageviews

instance : IsTotal GroupRow pageviewsGE :=
  ⟨fun a b => Nat.le_total b.pageviews a.pageviews⟩

instance : IsTrans GroupRow pageviewsGE :=
  ⟨fun a b c hab hbc => Nat.le_trans hbc hab⟩

/-- The `country_rows` queryset: group by the raw `(country, country_code)`
pair, annotate `Count("id")` and `Sum("visit_count")`, order by descending
`pageviews`. -/
def countryRows (store : List Visitor) : List GroupRow :=
  let keys := (store.map rowKey).dedup
  let groups := keys.map (fun p =>
    { country := p.1, country_code := p.2,
      unique_visitors := (groupRows store p).length,
      pageviews := ((groupRows store p).map (fun v => v.visit_count)).sum : GroupRow })
  groups.insertionSort pageviewsGE

/-- `visit_stats` (`resume/views.py`): total and unique counts plus the
displayed `by_country` sequence (`country or "Unknown"`, `country_code or ""`). -/
def visitStats (store : List Visitor) : StatsResponse :=
  { total_pageviews := (aggregateSum (store.map (fun v => v.visit_count))).getD 0,
    unique_visitors := store.length,
    by_country := (countryRows store).map (fun g =>
      { country := pyOr g.country "Unknown", country_code := pyOr g.country_code "",
        unique_visitors := g.unique_visitors, pageviews := g.pageviews }) }

/-- A store is well-formed when no two rows share a `visitor_id` — the
uniqueness the `unique=True` column constraint guarantees. -/
def WFStore (store : List Visitor) : Prop :=
  (store.map (fun v => v.visitor_id)).Nodup

/-- The view's validity test on the normalised id. -/
def validId (vid : String) : Prop :=
  vid ≠ "" ∧ vid.length ≤ 64

instance (vid : String) : Decidable (validId vid) := by
  unfold validId
  infer_instance

/-- Number of rows carrying a given `visitor_id`. -/
def countId (store : List Visitor) (vid : String) : Nat :=
  (store.filter (fun v => v.visitor_id == vid)).length

/-- The stored `visit_count` for an id, 0 when the row is absent. -/
def storedCount (store : List Visitor) (vid : String) : Nat :=
  match store.find? (fun v => v.visitor_id == vid) with
  | some v => v.visit_count
  | none => 0

/-- The row stored for an id, if any: the unique-column lookup. -/
def storedRow (store : List Visitor) (vid : String) : Option Visitor :=
  store.find? (fun v => v.visitor_id == vid)

/-- The country recorded for an id (`none` when the row is absent or the
column is `NULL`). -/
def storedCountry (store : List Visitor) (vid : String) : Option String :=
  (storedRow store vid).bind (fun v => v.country)

/-- The country code recorded for an id. -/
def storedCountryCode (store : List Visitor) (vid : String) : Option String :=
  (storedRow store vid).bind (fun v => v.country_code)

theorem refresh_fst_visitor_id (v : Visitor) (c : Bool) (ip : Option String) (ua : String) :
    (refresh v c ip ua).1.visitor_id = v.visitor_id := by
  simp only [refresh]
  split
  · rfl
  · split <;> split <;> rfl

theorem refresh_fst_country (v : Visitor) (c : Bool) (ip : Option String) (ua : String) :
    (refresh v c ip ua).1.country = v.country := by
  simp only [refresh]
  split
  · rfl
  · split <;> split <;> rfl

theorem refresh_fst_country_code (v : Visitor) (c : Bool) (ip : Option String) (ua : String) :
    (refresh v c ip ua).1.country_code = v.country_code := by
  simp only [refresh]
  split
  · rfl
  · split <;> split <;> rfl

theorem refresh_fst_visit_count (v : Visitor) (c : Bool) (ip : Option String) (ua : String) :
    (refresh v c ip ua).1.visit_count = v.visit_count := by
  simp only [refresh]
  split
  · rfl
  · split <;> split <;> rfl

theorem enrichStep_fst_visitor_id (v : Visitor) (ip : Option String) (geo : Option GeoReply)
    (u : Bool) : (enrichStep v ip geo u).1.visitor_id = v.visitor_id := by
  simp only [enrichStep]
  split
  · split <;> rfl
  · rfl

theorem enrichStep_fst_visit_count (v : Visitor) (ip : Option String) (geo : Option GeoReply)
    (u : Bool) : (enrichStep v ip geo u).1.visit_count = v.visit_count := by
  simp only [enrichStep]
  split
  · split <;> rfl
  · rfl

theorem enrichStep_called (v : Visitor) (ip : Option String) (geo : Option GeoReply) (u : Bool) :
    (enrichStep v ip geo u).2.2 = (strTruthy ip && !strTruthy v.country) := by
  simp only [enrichStep]
  split <;> rename_i h
  · split <;> simp [h]
  · simp only [Bool.not_eq_true] at h
    simp [h]

/-- A failed lookup (exception or non-success status) yields `(None, None)`. -/
def geoFailed (geo : Option GeoReply) : Prop :=
  ∀ r, geo = some r → ¬ r.status = some "success"

theorem lookupCountry_of_geoFailed (ip : Option String) (geo : Option GeoReply)
    (hg : geoFailed geo) : lookupCountry ip geo = (none, none) := by
  unfold lookupCountry
  split
  · rfl
  · match geo with
    | none => rfl
    | some r =>
        have := hg r rfl
        simp [this]

theorem enrichStep_of_geoFailed (v : Visitor) (ip : Option String) (geo : Option GeoReply)
    (u : Bool) (hg : geoFailed geo) : (enrichStep v ip geo u).1 = v := by
  simp only [enrichStep, lookupCountry_of_geoFailed ip geo hg]
  split
  · simp [strTruthy]
  · rfl

/-- Unfolding of `trackVisit` on a valid id. -/
theorem trackVisit_valid_eq (store : List Visitor) (req : TrackRequest) (geo : Option GeoReply)
    (now : Nat) (hv : validId (normId req)) :
    trackVisit store req geo now =
      (let vc := getOrCreate store (normId req) (getClientIp req) (req.user_agent.getD "") now
       let p1 := refresh vc.1 vc.2 (getClientIp req) (req.user_agent.getD "")
       let p2 := enrichStep p1.1 (getClientIp req) geo p1.2
       let v3 : Visitor := { p2.1 with visit_count := p2.1.visit_count + 1, last_seen := now }
       let body : TrackResponse :=
         { created := vc.2, visitor_id := v3.visitor_id, visit_count := v3.visit_count,
           country := v3.country, country_code := v3.country_code }
       { result := .ok body, store := saveRow store v3 vc.2, lookupCalled := p2.2.2 }) := by
  have hguard : (normId req == "" || decide (64 < (normId req).length)) = false := by
    simp only [Bool.or_eq_false_iff, beq_eq_false_iff_ne, ne_eq, decide_eq_false_iff_not,
      Nat.not_lt]
    exact ⟨hv.1, hv.2⟩
  simp only [trackVisit, hguard, Bool.false_eq_true, if_false]

theorem find?_replace (store : List Visitor) (vid : String) (w : Visitor)
    (hw : w.visitor_id = vid) :
    (store.map (fun r => if r.visitor_id == w.visitor_id then w else r)).find?
        (fun r => r.visitor_id == vid) =
      match store.find? (fun r => r.visitor_id == vid) with
      | some _ => some w
      | none => none := by
  induction store with
  | nil => rfl
  | cons a l ih =>
      by_cases h : a.visitor_id = vid
      · simp [List.find?, h, hw]
      · have hne : (a.visitor_id == vid) = false := by simp [h]
        simp only [List.map_cons, List.find?, hw, hne]
        simp only [hw] at ih
        simpa [hne] using ih

theorem length_filter_map_congr (f : Visitor → Visitor) (p : Visitor → Bool)
    (hf : ∀ r, p (f r) = p r) (l : List Visitor) :
    ((l.map f).filter p).length = (l.filter p).length := by
  induction l with
  | nil => rfl
  | cons a l ih =>
      simp only [List.map_cons, List.filter_cons, hf]
      by_cases h : p a
      · simp [h, ih]
      · simp [h, ih]

theorem countId_replace (store : List Visitor) (vid : String) (w : Visitor)
    (hw : w.visitor_id = vid) :
    countId (store.map (fun r => if r.visitor_id == w.visitor_id then w else r)) vid =
      countId store vid := by
  apply length_filter_map_congr
  intro r
  by_cases hr : r.visitor_id = vid
  · simp [hr, hw]
  · simp [hr, hw]

theorem countId_eq_zero_of_find?_none (store : List Visitor) (vid : String)
    (h : store.find? (fun v => v.visitor_id == vid) = none) : countId store vid = 0 := by
  rw [List.find?_eq_none] at h
  simp only [countId]
  rw [List.filter_eq_nil_iff.mpr h]
  rfl

theorem countId_le_one_of_wf (store : List Visitor) (vid : String) (hWF : WFStore store) :
    countId store vid ≤ 1 := by
  induction store with
  | nil => simp [countId]
  | cons a l ih =>
      simp only [WFStore, List.map_cons, List.nodup_cons] at hWF
      by_cases h : a.visitor_id = vid
      · have hzero : countId l vid = 0 := by
          apply countId_eq_zero_of_find?_none
          rw [List.find?_eq_none]
          intro x hx
          simp only [beq_iff_eq]
          intro hxid
          apply hWF.1
          rw [h, ← hxid]
          exact List.mem_map_of_mem _ hx
        simp only [countId, List.filter_cons] at hzero ⊢
        simp [h, hzero]
      · have hne : (a.visitor_id == vid) = false := by simp [h]
        simp only [countId, List.filter_cons]
        simp only [hne, Bool.false_eq_true, if_false]
        exact ih hWF.2

theorem countId_pos_of_find?_some (store : List Visitor) (vid : String) (w : Visitor)
    (h : store.find? (fun v => v.visitor_id == vid) = some w) : 1 ≤ countId store vid := by
  have hmem : w ∈ store := List.mem_of_find?_eq_some h
  have hp := List.find?_some h
  have hmf : w ∈ store.filter (fun v => v.visitor_id == vid) :=
    List.mem_filter.mpr ⟨hmem, hp⟩
  have hlen := List.length_pos_of_mem hmf
  simpa [countId] using hlen

/-- Fixture: a request for id `"abc"` from direct address `1.2.3.4`. -/
def reqAbc : TrackRequest :=
  { visitor_id := some "abc", x_forwarded_for := none, remote_addr := some "1.2.3.4",
    user_agent := some "UA" }

/-- Fixture: a successful lookup reply carrying `("Taiwan", "TW")`. -/
def geoTW : Option GeoReply :=
  some { status := some "success", country := some "Taiwan", countryCode := some "TW" }

/-- Fixture: a request whose `visitor_id` is whitespace only. -/
def reqSpaces : TrackRequest :=
  { visitor_id := some "   ", x_forwarded_for := none, remote_addr := some "1.2.3.4",
    user_agent := none }

theorem trackVisit_invalid_eq (store : List Visitor) (req : TrackRequest)
    (geo : Option GeoReply) (now : Nat) (h : ¬ validId (normId req)) :
    trackVisit store req geo now =
      { result := .error { detail := "Invalid visitor_id", status := 400 },
        store := store, lookupCalled := false } := by
  have hguard : (normId req == "" || decide (64 < (normId req).length)) = true := by
    rw [validId, not_and_or] at h
    rcases h with h1 | h2
    · simp only [ne_eq, not_not] at h1
      simp [h1]
    · simp only [not_le] at h2
      simp [h2]
  simp only [trackVisit, hguard, if_true]

/-- C2: if the supplied `visitor_id` is empty after trimming or exceeds 64
characters, `track_visit` returns HTTP 400 with body
`{detail: "Invalid visitor_id"}`, the store is left completely unchanged,
and the lookup collaborator is not invoked. -/
theorem c2_invalid_id_rejected_store_unchanged (store : List Visitor) (req : TrackRequest)
    (geo : Option GeoReply) (now : Nat) (h : ¬ validId (normId req)) :
    trackVisit store req geo now =
      { result := .error { detail := "Invalid visitor_id", status := 400 },
        store := store, lookupCalled := false } :=
  trackVisit_invalid_eq store req geo now h

/-- C2 witness: a whitespace-only id is rejected and the store stays empty. -/
theorem c2_invalid_id_rejected_store_unchanged_witness :
    ¬ validId (normId reqSpaces) ∧
    trackVisit [] reqSpaces none 0 =
      { result := .error { detail := "Invalid visitor_id", status := 400 },
        store := [], lookupCalled := false } :=
  ⟨by decide, c2_invalid_id_rejected_store_unchanged [] reqSpaces none 0 (by decide)⟩

/-- The client-ip rule exactly as the claim words it (for comparison with
`getClientIp`): whenever the forwarded header is present, use its first
comma-separated value stripped; otherwise the direct connection address. -/
def claimClientIp (req : TrackRequest) : Option String :=
  match req.x_forwarded_for with
  | some s => some (pyStrip ((pySplitComma s).headD ""))
  | none => req.remote_addr

/-- Fixture: a request carrying a present but empty forwarded header. -/
def reqEmptyFwd : TrackRequest :=
  { visitor_id := none, x_forwarded_for := some "", remote_addr := some "9.9.9.9",
    user_agent := none }

/-- C9 counterexample: with a present-but-empty forwarded header the code
falls back to `REMOTE_ADDR` while the claim prescribes the header's first
(empty) entry, so the claim as stated fails. -/
theorem c9_client_ip_counterexample :
    getClientIp reqEmptyFwd = some "9.9.9.9" ∧
    claimClientIp reqEmptyFwd = some "" ∧
    getClientIp reqEmptyFwd ≠ claimClientIp reqEmptyFwd := by
  refine ⟨rfl, rfl, ?_⟩
  decide

/-- The amended client-ip rule: the forwarded header is used only when it is
present and non-empty; an absent or empty header falls back to the direct
connection address. -/
def claimClientIpAmended (req : TrackRequest) : Option String :=
  match req.x_forwarded_for with
  | some s =>
      if s = "" then req.remote_addr else some (pyStrip ((pySplitComma s).headD ""))
  | none => req.remote_addr

/-- C9 (amended): the client IP is the first comma-separated value of the
forwarded header, stripped, when that header is present and non-empty, and
the direct connection address otherwise. -/
theorem c9_client_ip_amended (req : TrackRequest) :
    getClientIp req = claimClientIpAmended req := by
  unfold getClientIp claimClientIpAmended
  cases req.x_forwarded_for with
  | none => rfl
  | some s =>
      by_cases h : s = ""
      · simp [h]
      · simp [h]

/-- C8: recording a visit for id `"abc"` from IP `1.2.3.4` with a lookup
returning `("Taiwan", "TW")` responds
`{created: true, visitor_id: "abc", visit_count: 1, country: "Taiwan",
country_code: "TW"}`; a second call with the same id responds
`created: false, visit_count: 2` with the same country fields. -/
theorem c8_scenario_abc_two_visits :
    (trackVisit [] reqAbc geoTW 0).result =
      .ok { created := true, visitor_id := "abc", visit_count := 1,
            country := some "Taiwan", country_code := some "TW" } ∧
    (trackVisit (trackVisit [] reqAbc geoTW 0).store reqAbc geoTW 1).result =
      .ok { created := false, visitor_id := "abc", visit_count := 2,
            country := some "Taiwan", country_code := some "TW" } :=
  ⟨rfl, rfl⟩

theorem refresh_created (v : Visitor) (ip : Option String) (ua : String) :
    refresh v true ip ua = (v, false) := rfl

theorem storedRow_saveRow_true (store : List Visitor) (vid : String) (v3 : Visitor)
    (hid : v3.visitor_id = vid)
    (hfind : store.find? (fun r => r.visitor_id == vid) = none) :
    storedRow (saveRow store v3 true) vid = some v3 := by
  unfold storedRow saveRow
  rw [if_pos rfl, List.find?_append, hfind]
  simp [List.find?, hid]

theorem storedRow_saveRow_false (store : List Visitor) (vid : String) (v3 w : Visitor)
    (hid : v3.visitor_id = vid)
    (hfind : store.find? (fun r => r.visitor_id == vid) = some w) :
    storedRow (saveRow store v3 false) vid = some v3 := by
  unfold storedRow saveRow
  rw [if_neg (by simp)]
  rw [find?_replace store vid v3 hid, hfind]

/-- Fixture: the row for `"abc"` with both country fields populated. -/
def rowAbcTW : Visitor :=
  { visitor_id := "abc", ip_address := some "1.2.3.4", country := some "Taiwan",
    country_code := some "TW", user_agent := some "UA", visit_count := 1,
    first_seen := 0, last_seen := 0 }

/-- C5: when the visitor's `country` and `country_code` are already set
(non-empty), a further `track_visit` call for that visitor never invokes the
geolocation lookup collaborator. -/
theorem c5_no_lookup_once_country_set (store : List Visitor) (req : TrackRequest)
    (geo : Option GeoReply) (now : Nat) (w : Visitor)
    (hfind : store.find? (fun v => v.visitor_id == normId req) = some w)
    (hc : strTruthy w.country = true) (hcc : strTruthy w.country_code = true) :
    (trackVisit store req geo now).lookupCalled = false := by
  by_cases hv : validId (normId req)
  · rw [trackVisit_valid_eq store req geo now hv]
    simp only [getOrCreate, hfind]
    rw [enrichStep_called, refresh_fst_country]
    simp [hc]
  · rw [trackVisit_invalid_eq store req geo now hv]

/-- C5 witness: a stored `"abc"` row with `("Taiwan", "TW")` set triggers no
lookup on a repeat visit. -/
theorem c5_no_lookup_once_country_set_witness :
    ([rowAbcTW].find? (fun v => v.visitor_id == normId reqAbc) = some rowAbcTW) ∧
    (trackVisit [rowAbcTW] reqAbc geoTW 0).lookupCalled = false :=
  ⟨rfl, c5_no_lookup_once_country_set [rowAbcTW] reqAbc geoTW 0 rowAbcTW rfl rfl rfl⟩

theorem find?_map_if (store : List Visitor) (vid : String) (w : Visitor)
    (hw : w.visitor_id = vid) :
    (store.map (fun r => if r.visitor_id == vid then w else r)).find?
        (fun r => r.visitor_id == vid) =
      match store.find? (fun r => r.visitor_id == vid) with
      | some _ => some w
      | none => none := by
  have h := find?_replace store vid w hw
  simpa [hw] using h

theorem countId_map_if (store : List Visitor) (vid : String) (w : Visitor)
    (hw : w.visitor_id = vid) :
    countId (store.map (fun r => if r.visitor_id == vid then w else r)) vid =
      countId store vid := by
  have h := countId_replace store vid w hw
  simpa [hw] using h

theorem storedCount_saveRow_false (store : List Visitor) (vid : String) (v3 w : Visitor)
    (hid : v3.visitor_id = vid)
    (hfind : store.find? (fun r => r.visitor_id == vid) = some w) :
    storedCount (saveRow store v3 false) vid = v3.visit_count := by
  have h := storedRow_saveRow_false store vid v3 w hid hfind
  unfold storedRow at h
  unfold storedCount
  rw [h]

theorem storedCountry_saveRow_false (store : List Visitor) (vid : String) (v3 w : Visitor)
    (hid : v3.visitor_id = vid)
    (hfind : store.find? (fun r => r.visitor_id == vid) = some w) :
    storedCountry (saveRow store v3 false) vid = v3.country := by
  have h := storedRow_saveRow_false store vid v3 w hid hfind
  unfold storedCountry
  rw [h]
  rfl

theorem storedCountryCode_saveRow_false (store : List Visitor) (vid : String) (v3 w : Visitor)
    (hid : v3.visitor_id = vid)
    (hfind : store.find? (fun r => r.visitor_id == vid) = some w) :
    storedCountryCode (saveRow store v3 false) vid = v3.country_code := by
  have h := storedRow_saveRow_false store vid v3 w hid hfind
  unfold storedCountryCode
  rw [h]
  rfl

/-- C3: when the geolocation lookup fails (exception, timeout, malformed
body, or non-success status), `track_visit` still succeeds: the response
carries the incremented `visit_count`, the increment is persisted, and the
visitor's `country`/`country_code` are exactly what they were before (in
particular they remain unset for a fresh or never-enriched row). -/
theorem c3_geo_failure_visit_still_recorded (store : List Visitor) (req : TrackRequest)
    (geo : Option GeoReply) (now : Nat) (hv : validId (normId req)) (hg : geoFailed geo) :
    ∃ body, (trackVisit store req geo now).result = .ok body ∧
      body.visit_count = storedCount store (normId req) + 1 ∧
      body.country = storedCountry store (normId req) ∧
      body.country_code = storedCountryCode store (normId req) ∧
      storedCount (trackVisit store req geo now).store (normId req)
        = storedCount store (normId req) + 1 ∧
      storedCountry (trackVisit store req geo now).store (normId req)
        = storedCountry store (normId req) ∧
      storedCountryCode (trackVisit store req geo now).store (normId req)
        = storedCountryCode store (normId req) := by
  rw [trackVisit_valid_eq store req geo now hv]
  cases hfind : store.find? (fun v => v.visitor_id == normId req) with
  | none =>
      simp only [getOrCreate, hfind, refresh_created, enrichStep_of_geoFailed _ _ _ _ hg]
      refine ⟨_, rfl, ?_, ?_, ?_, ?_, ?_, ?_⟩
      · simp [storedCount, hfind]
      · simp [storedCountry, storedRow, hfind]
      · simp [storedCountryCode, storedRow, hfind]
      · simp [storedCount, saveRow, List.find?_append, hfind, List.find?]
      · simp [storedCountry, storedRow, saveRow, List.find?_append, hfind, List.find?]
      · simp [storedCountryCode, storedRow, saveRow, List.find?_append, hfind, List.find?]
  | some w =>
      have hwid : w.visitor_id = normId req := by
        have h := List.find?_some hfind
        simpa using h
      simp only [getOrCreate, hfind, enrichStep_of_geoFailed _ _ _ _ hg]
      refine ⟨_, rfl, ?_, ?_, ?_, ?_, ?_, ?_⟩
      · simp [storedCount, hfind, refresh_fst_visit_count]
      · simp [storedCountry, storedRow, hfind, refresh_fst_country]
      · simp [storedCountryCode, storedRow, hfind, refresh_fst_country_code]
      · rw [storedCount_saveRow_false store (normId req)]
        · simp [refresh_fst_visit_count, storedCount, hfind]
        · exact w
        · simp [refresh_fst_visitor_id, hwid]
        · exact hfind
      · rw [storedCountry_saveRow_false store (normId req)]
        · simp [refresh_fst_country, storedCountry, storedRow, hfind]
        · exact w
        · simp [refresh_fst_visitor_id, hwid]
        · exact hfind
      · rw [storedCountryCode_saveRow_false store (normId req)]
        · simp [refresh_fst_country_code, storedCountryCode, storedRow, hfind]
        · exact w
        · simp [refresh_fst_visitor_id, hwid]
        · exact hfind

/-- C3 witness: a timed-out lookup (`none` reply) still records the first
visit of `"abc"` and leaves both country fields unset. -/
theorem c3_geo_failure_visit_still_recorded_witness :
    validId (normId reqAbc) ∧ geoFailed none ∧
    (∃ body, (trackVisit [] reqAbc none 0).result = .ok body ∧
      body.visit_count = storedCount [] (normId reqAbc) + 1 ∧
      body.country = storedCountry [] (normId reqAbc) ∧
      body.country_code = storedCountryCode [] (normId reqAbc) ∧
      storedCount (trackVisit [] reqAbc none 0).store (normId reqAbc)
        = storedCount [] (normId reqAbc) + 1 ∧
      storedCountry (trackVisit [] reqAbc none 0).store (normId reqAbc)
        = storedCountry [] (normId reqAbc) ∧
      storedCountryCode (trackVisit [] reqAbc none 0).store (normId reqAbc)
        = storedCountryCode [] (normId reqAbc)) :=
  ⟨by decide, by simp [geoFailed],
    c3_geo_failure_visit_still_recorded [] reqAbc none 0 (by decide) (by simp [geoFailed])⟩

theorem trackVisit_ok_visitor_id (store : List Visitor) (req : TrackRequest)
    (geo : Option GeoReply) (now : Nat) (body : TrackResponse)
    (h : (trackVisit store req geo now).result = .ok body) :
    body.visitor_id = normId req := by
  by_cases hv : validId (normId req)
  · rw [trackVisit_valid_eq store req geo now hv] at h
    cases hfind : store.find? (fun v => v.visitor_id == normId req) with
    | none =>
        simp only [getOrCreate, hfind, refresh_created, Except.ok.injEq] at h
        rw [← h]
        simp [enrichStep_fst_visitor_id]
    | some w =>
        have hwid : w.visitor_id = normId req := by
          have hsome := List.find?_some hfind
          simpa using hsome
        simp only [getOrCreate, hfind, Except.ok.injEq] at h
        rw [← h]
        simp [enrichStep_fst_visitor_id, refresh_fst_visitor_id, hwid]
  · rw [trackVisit_invalid_eq store req geo now hv] at h
    exact absurd h (by simp)

/-- C10: `track_visit` depends on the supplied `visitor_id` only through its
whitespace-trimmed form — two requests equal except for leading/trailing
whitespace in `visitor_id` produce identical outcomes (same Visitor row) —
and every successful response echoes the trimmed id. -/
theorem c10_trimmed_id_addresses_same_row (store : List Visitor) (req1 req2 : TrackRequest)
    (geo : Option GeoReply) (now : Nat)
    (hid : pyStrip (req1.visitor_id.getD "") = pyStrip (req2.visitor_id.getD ""))
    (hfw : req1.x_forwarded_for = req2.x_forwarded_for)
    (hra : req1.remote_addr = req2.remote_addr)
    (hua : req1.user_agent = req2.user_agent) :
    trackVisit store req1 geo now = trackVisit store req2 geo now ∧
    (∀ body, (trackVisit store req1 geo now).result = .ok body →
      body.visitor_id = normId req1) := by
  have hn : normId req1 = normId req2 := hid
  have hip : getClientIp req1 = getClientIp req2 := by
    unfold getClientIp
    rw [hfw, hra]
  constructor
  · simp only [trackVisit, hn, hip, hua]
  · intro body h
    exact trackVisit_ok_visitor_id store req1 geo now body h

/-- Fixture: the `"abc"` request with surrounding whitespace in the id. -/
def reqAbcPadded : TrackRequest :=
  { visitor_id := some "  abc ", x_forwarded_for := none, remote_addr := some "1.2.3.4",
    user_agent := some "UA" }

/-- C10 witness: a padded `"  abc "` id behaves exactly like `"abc"` and the
response echoes the trimmed id. -/
theorem c10_trimmed_id_addresses_same_row_witness :
    pyStrip ((reqAbcPadded.visitor_id).getD "") = pyStrip ((reqAbc.visitor_id).getD "") ∧
    trackVisit [] reqAbcPadded geoTW 0 = trackVisit [] reqAbc geoTW 0 ∧
    (∀ body, (trackVisit [] reqAbcPadded geoTW 0).result = .ok body →
      body.visitor_id = normId reqAbcPadded) :=
  ⟨by decide, (c10_trimmed_id_addresses_same_row [] reqAbcPadded reqAbc geoTW 0
      (by decide) rfl rfl rfl).1,
    (c10_trimmed_id_addresses_same_row [] reqAbcPadded reqAbc geoTW 0
      (by decide) rfl rfl rfl).2⟩

theorem countId_saveRow_false (store : List Visitor) (vid : String) (v3 : Visitor)
    (hid : v3.visitor_id = vid) :
    countId (saveRow store v3 false) vid = countId store vid := by
  simp only [saveRow, Bool.false_eq_true, if_false]
  exact countId_replace store vid v3 hid

instance (store : List Visitor) : Decidable (WFStore store) := by
  unfold WFStore
  infer_instance

/-- C1: for a valid id over a well-formed store (unique ids), each
`track_visit` call increments that visitor's `visit_count` by exactly 1 (in
the response and persisted), never creates a second row for an id that
already has one (exactly one row with the id afterwards; no length change on
a repeat visit), and the first call for a new id creates the row and returns
`visit_count = 1`. -/
theorem c1_visit_count_increments_exactly_one (store : List Visitor) (req : TrackRequest)
    (geo : Option GeoReply) (now : Nat) (hWF : WFStore store) (hv : validId (normId req)) :
    ∃ body, (trackVisit store req geo now).result = .ok body ∧
      body.visit_count = storedCount store (normId req) + 1 ∧
      storedCount (trackVisit store req geo now).store (normId req)
        = storedCount store (normId req) + 1 ∧
      countId (trackVisit store req geo now).store (normId req) = 1 ∧
      (storedRow store (normId req) = none →
        body.created = true ∧ body.visit_count = 1) ∧
      (storedRow store (normId req) ≠ none →
        body.created = false ∧
        (trackVisit store req geo now).store.length = store.length) := by
  rw [trackVisit_valid_eq store req geo now hv]
  cases hfind : store.find? (fun v => v.visitor_id == normId req) with
  | none =>
      have h0 := countId_eq_zero_of_find?_none store (normId req) hfind
      simp only [getOrCreate, hfind, refresh_created]
      refine ⟨_, rfl, ?_, ?_, ?_, ?_, ?_⟩
      · simp [enrichStep_fst_visit_count, storedCount, hfind]
      · simp [storedCount, saveRow, List.find?_append, hfind, List.find?,
          enrichStep_fst_visitor_id, enrichStep_fst_visit_count]
      · simp only [saveRow, if_pos rfl]
        simp [countId, List.filter_append, List.filter, enrichStep_fst_visitor_id]
        simpa [countId] using h0
      · intro _
        exact ⟨rfl, by simp [enrichStep_fst_visit_count]⟩
      · intro hne
        exact absurd (show storedRow store (normId req) = none by
          simp [storedRow, hfind]) hne
  | some w =>
      have hwid : w.visitor_id = normId req := by
        have hsome := List.find?_some hfind
        simpa using hsome
      have hle := countId_le_one_of_wf store (normId req) hWF
      have hge := countId_pos_of_find?_some store (normId req) w hfind
      have h1 : countId store (normId req) = 1 := le_antisymm hle hge
      simp only [getOrCreate, hfind]
      refine ⟨_, rfl, ?_, ?_, ?_, ?_, ?_⟩
      · simp [enrichStep_fst_visit_count, refresh_fst_visit_count, storedCount, hfind]
      · rw [storedCount_saveRow_false store (normId req)]
        · simp [enrichStep_fst_visit_count, refresh_fst_visit_count, storedCount, hfind]
        · exact w
        · simp [enrichStep_fst_visitor_id, refresh_fst_visitor_id, hwid]
        · exact hfind
      · rw [countId_saveRow_false store (normId req)]
        · exact h1
        · simp [enrichStep_fst_visitor_id, refresh_fst_visitor_id, hwid]
      · intro h0
        simp [storedRow, hfind] at h0
      · intro _
        refine ⟨rfl, ?_⟩
        simp [saveRow]

/-- C1 witness: over the singleton store holding `"abc"` with count 1, a
repeat visit responds 2, persists 2, and keeps exactly one `"abc"` row. -/
theorem c1_visit_count_increments_exactly_one_witness :
    WFStore [rowAbcTW] ∧ validId (normId reqAbc) ∧
    (∃ body, (trackVisit [rowAbcTW] reqAbc geoTW 1).result = .ok body ∧
      body.visit_count = storedCount [rowAbcTW] (normId reqAbc) + 1 ∧
      storedCount (trackVisit [rowAbcTW] reqAbc geoTW 1).store (normId reqAbc)
        = storedCount [rowAbcTW] (normId reqAbc) + 1 ∧
      countId (trackVisit [rowAbcTW] reqAbc geoTW 1).store (normId reqAbc) = 1 ∧
      (storedRow [rowAbcTW] (normId reqAbc) = none →
        body.created = true ∧ body.visit_count = 1) ∧
      (storedRow [rowAbcTW] (normId reqAbc) ≠ none →
        body.created = false ∧
        (trackVisit [rowAbcTW] reqAbc geoTW 1).store.length = [rowAbcTW].length)) :=
  ⟨by decide, by decide,
    c1_visit_count_increments_exactly_one [rowAbcTW] reqAbc geoTW 1 (by decide) (by decide)⟩

/-- The claimed invariant on one row: `country` and `country_code` are
either both unset/empty or both populated (equal Python truthiness). -/
def countryConsistent (v : Visitor) : Prop :=
  strTruthy v.country = strTruthy v.country_code

instance (v : Visitor) : Decidable (countryConsistent v) := by
  unfold countryConsistent
  infer_instance

/-- The claimed invariant over the whole table. -/
def storeConsistent (store : List Visitor) : Prop :=
  ∀ v ∈ store, countryConsistent v

instance (store : List Visitor) : Decidable (storeConsistent store) := by
  unfold storeConsistent
  infer_instance

/-- Fixture: a success reply carrying a country but no country code. -/
def geoPartial : Option GeoReply :=
  some { status := some "success", country := some "Taiwan", countryCode := none }

/-- C4 counterexample: a successful lookup reply whose body carries `country`
but no `countryCode` leaves a reachable row with exactly one of the two set,
so the claimed invariant fails on the code as stated. -/
theorem c4_both_or_neither_counterexample :
    storeConsistent [] ∧
    ¬ storeConsistent (trackVisit [] reqAbc geoPartial 0).store := by
  constructor
  · decide
  · decide

/-- A lookup reply, when successful, populates `country` and `countryCode`
with the same truthiness (both present and non-empty, or neither). -/
def geoBothFields (geo : Option GeoReply) : Prop :=
  ∀ r, geo = some r → r.status = some "success" →
    strTruthy r.country = strTruthy r.countryCode

theorem lookupCountry_truthy_pair (ip : Option String) (geo : Option GeoReply)
    (hg : geoBothFields geo) :
    strTruthy (lookupCountry ip geo).1 = strTruthy (lookupCountry ip geo).2 := by
  unfold lookupCountry
  split
  · rfl
  · cases geo with
    | none => rfl
    | some r =>
        by_cases h : r.status = some "success"
        · simp only [h, beq_self_eq_true, if_true]
          exact hg r rfl h
        · have hne : (r.status == some "success") = false := by simp [h]
          simp [hne]

theorem enrichStep_consistent (v : Visitor) (ip : Option String) (geo : Option GeoReply)
    (u : Bool) (hg : geoBothFields geo) (hv : countryConsistent v) :
    countryConsistent (enrichStep v ip geo u).1 := by
  simp only [enrichStep]
  split
  · split
    · simpa [countryConsistent] using lookupCountry_truthy_pair ip geo hg
    · exact hv
  · exact hv

theorem refresh_consistent (v : Visitor) (c : Bool) (ip : Option String) (ua : String)
    (hv : countryConsistent v) : countryConsistent (refresh v c ip ua).1 := by
  unfold countryConsistent at *
  rw [refresh_fst_country, refresh_fst_country_code]
  exact hv

theorem getOrCreate_fst_consistent (store : List Visitor) (vid : String) (ip : Option String)
    (ua : String) (now : Nat) (hs : storeConsistent store) :
    countryConsistent (getOrCreate store vid ip ua now).1 := by
  cases hfind : store.find? (fun v => v.visitor_id == vid) with
  | none => simp [getOrCreate, hfind, countryConsistent]
  | some w =>
      simp only [getOrCreate, hfind]
      exact hs w (List.mem_of_find?_eq_some hfind)

theorem mem_saveRow (store : List Visitor) (v3 : Visitor) (c : Bool) (x : Visitor)
    (hx : x ∈ saveRow store v3 c) : x ∈ store ∨ x = v3 := by
  unfold saveRow at hx
  split at hx
  · rcases List.mem_append.mp hx with hxs | hxl
    · exact Or.inl hxs
    · exact Or.inr (List.mem_singleton.mp hxl)
  · rcases List.mem_map.mp hx with ⟨r, hr, hfr⟩
    split at hfr
    · exact Or.inr hfr.symm
    · rw [← hfr]
      exact Or.inl hr

/-- C4 (amended): `country` and `country_code` are always assigned together,
from a single lookup result; provided every successful lookup reply carries
`country` and `countryCode` with equal truthiness, every reachable row has
the two fields both unset or both set — no operation leaves exactly one of
them set. (The counterexample shows the unamended claim fails when a
successful reply carries only one of the two fields.) -/
theorem c4_country_fields_consistent_amended (store : List Visitor) (req : TrackRequest)
    (geo : Option GeoReply) (now : Nat) (hg : geoBothFields geo)
    (hs : storeConsistent store) :
    storeConsistent (trackVisit store req geo now).store := by
  by_cases hv : validId (normId req)
  · rw [trackVisit_valid_eq store req geo now hv]
    intro x hx
    rcases mem_saveRow _ _ _ x hx with hxs | rfl
    · exact hs x hxs
    · have h2 := enrichStep_consistent
        (refresh (getOrCreate store (normId req) (getClientIp req) (req.user_agent.getD "") now).1
          (getOrCreate store (normId req) (getClientIp req) (req.user_agent.getD "") now).2
          (getClientIp req) (req.user_agent.getD "")).1
        (getClientIp req) geo
        (refresh (getOrCreate store (normId req) (getClientIp req) (req.user_agent.getD "") now).1
          (getOrCreate store (normId req) (getClientIp req) (req.user_agent.getD "") now).2
          (getClientIp req) (req.user_agent.getD "")).2
        hg
        (refresh_consistent
          (getOrCreate store (normId req) (getClientIp req) (req.user_agent.getD "") now).1
          (getOrCreate store (normId req) (getClientIp req) (req.user_agent.getD "") now).2
          (getClientIp req) (req.user_agent.getD "")
          (getOrCreate_fst_consistent store (normId req) (getClientIp req)
            (req.user_agent.getD "") now hs))
      simpa [countryConsistent] using h2
  · rw [trackVisit_invalid_eq store req geo now hv]
    exact hs

/-- C4 witness: with a well-formed lookup reply the invariant is preserved
from the empty store. -/
theorem c4_country_fields_consistent_amended_witness :
    geoBothFields geoTW ∧ storeConsistent [] ∧
    storeConsistent (trackVisit [] reqAbc geoTW 0).store :=
  ⟨by
      intro r hr hst
      simp only [geoTW, Option.some.injEq] at hr
      subst hr
      decide,
    by decide,
    c4_country_fields_consistent_amended [] reqAbc geoTW 0
      (by
        intro r hr hst
        simp only [geoTW, Option.some.injEq] at hr
        subst hr
        decide)
      (by decide)⟩

/-- C7: `get_stats` returns `total_pageviews` equal to the sum of
`visit_count` over all rows (0 for the empty table) and `unique_visitors`
equal to the number of rows; the computation is a pure read of the store. -/
theorem c7_stats_totals (store : List Visitor) :
    (visitStats store).total_pageviews = (store.map (fun v => v.visit_count)).sum ∧
    (visitStats store).unique_visitors = store.length := by
  constructor
  · cases store with
    | nil => rfl
    | cons a l => rfl
  · rfl

theorem pyOr_of_falsy (x : Option String) (d : String) (hx : strTruthy x = false) :
    pyOr x d = d := by
  cases x with
  | none => rfl
  | some s =>
      have hs : s = "" := by
        by_cases h : s = ""
        · exact h
        · simp [strTruthy, h] at hx
      simp [pyOr, hs]

/-- The displayed `by_country` entry belonging to one raw grouping key. -/
def displayEntry (store : List Visitor) (p : Option String × Option String) : StatsEntry :=
  { country := pyOr p.1 "Unknown", country_code := pyOr p.2 "",
    unique_visitors := (groupRows store p).length,
    pageviews := ((groupRows store p).map (fun x => x.visit_count)).sum }

/-- C6: `get_stats` returns `by_country` grouping rows by the raw
`(country, country_code)` pair; each entry is displayed with `country or
"Unknown"` and `country_code or ""` (so unset-country rows appear under the
literal label `"Unknown"` with empty code), reports the group's row count as
`unique_visitors` and its summed `visit_count` as `pageviews`, every entry
comes from a key occurring in the store, every row's key is represented,
there is one entry per distinct key, and the sequence is ordered by
descending summed `visit_count`. -/
theorem c6_by_country_grouped_and_sorted (store : List Visitor) :
    List.Pairwise (fun a b => b.pageviews ≤ a.pageviews) (visitStats store).by_country ∧
    ((visitStats store).by_country).length = ((store.map rowKey).dedup).length ∧
    (∀ e ∈ (visitStats store).by_country, ∃ p, p ∈ store.map rowKey ∧
      e.country = pyOr p.1 "Unknown" ∧ e.country_code = pyOr p.2 "" ∧
      e.unique_visitors = (groupRows store p).length ∧
      e.pageviews = ((groupRows store p).map (fun x => x.visit_count)).sum) ∧
    (∀ v ∈ store, ∃ e ∈ (visitStats store).by_country,
      e.country = pyOr v.country "Unknown" ∧ e.country_code = pyOr v.country_code "" ∧
      e.unique_visitors = (groupRows store (rowKey v)).length ∧
      e.pageviews = ((groupRows store (rowKey v)).map (fun x => x.visit_count)).sum) ∧
    (∀ v ∈ store, strTruthy v.country = false → strTruthy v.country_code = false →
      ∃ e ∈ (visitStats store).by_country, e.country = "Unknown" ∧ e.country_code = "" ∧
        e.unique_visitors = (groupRows store (rowKey v)).length ∧
        e.pageviews = ((groupRows store (rowKey v)).map (fun x => x.visit_count)).sum) := by
  refine ⟨?_, ?_, ?_, ?_, ?_⟩
  · simp only [visitStats, countryRows]
    exact List.Pairwise.map _ (fun a b h => h) (List.sorted_insertionSort pageviewsGE _)
  · simp only [visitStats, countryRows, List.length_map, List.length_insertionSort]
  · intro e he
    simp only [visitStats, countryRows] at he
    rcases List.mem_map.mp he with ⟨g, hg, rfl⟩
    rw [List.mem_insertionSort] at hg
    rcases List.mem_map.mp hg with ⟨p, hp, rfl⟩
    exact ⟨p, List.mem_dedup.mp hp, rfl, rfl, rfl, rfl⟩
  · intro v hv
    refine ⟨displayEntry store (rowKey v), ?_, rfl, rfl, rfl, rfl⟩
    simp only [visitStats, countryRows]
    exact List.mem_map_of_mem _
      ((List.mem_insertionSort pageviewsGE).mpr
        (List.mem_map_of_mem _ (List.mem_dedup.mpr (List.mem_map_of_mem _ hv))))
  · intro v hv hc hcc
    refine ⟨displayEntry store (rowKey v), ?_, ?_, ?_, rfl, rfl⟩
    · simp only [visitStats, countryRows]
      exact List.mem_map_of_mem _
        ((List.mem_insertionSort pageviewsGE).mpr
          (List.mem_map_of_mem _ (List.mem_dedup.mpr (List.mem_map_of_mem _ hv))))
    · exact pyOr_of_falsy v.country "Unknown" hc
    · exact pyOr_of_falsy v.country_code "" hcc

/-- Fixture: a `"Taiwan"` visitor with two pageviews. -/
def rowTaiwan2 : Visitor :=
  { visitor_id := "a", ip_address := some "1.2.3.4", country := some "Taiwan",
    country_code := some "TW", user_agent := none, visit_count := 2,
    first_seen := 0, last_seen := 0 }

/-- Fixture: a visitor with no country information and one pageview. -/
def rowUnknown1 : Visitor :=
  { visitor_id := "b", ip_address := none, country := none, country_code := none,
    user_agent := none, visit_count := 1, first_seen := 0, last_seen := 0 }

/-- C6 witness: on the spec's two-visitor scenario the sequence is exactly
`[("Taiwan","TW",1,2), ("Unknown","",1,1)]` and the theorem instantiates. -/
theorem c6_by_country_grouped_and_sorted_witness :
    (visitStats [rowTaiwan2, rowUnknown1]).by_country =
      [{ country := "Taiwan", country_code := "TW", unique_visitors := 1, pageviews := 2 },
       { country := "Unknown", country_code := "", unique_visitors := 1, pageviews := 1 }] ∧
    List.Pairwise (fun a b => b.pageviews ≤ a.pageviews)
      (visitStats [rowTaiwan2, rowUnknown1]).by_country :=
  ⟨rfl, (c6_by_country_grouped_and_sorted [rowTaiwan2, rowUnknown1]).1⟩
